import Mathlib

/-!
Verification of the cybersource-3ds-client browser SDK.

This file gives a shallow embedding of the orchestration logic of the
repository and proves the specified properties about it.  The embedding
follows the TypeScript sources:

* src/utils/index.ts           (decodeCaptureContext)
* src/ui/flex-microform.ts     (FlexMicroform.doTokenize, decodeToken)
* src/ui/device-data-collector.ts (DeviceDataCollector.collect / cleanup)
* src/ui/challenge-modal.ts    (ChallengeModal.show / close, the variant
                                with the isResolved settle-once guard)
* src/index.ts                 (WebClient.waitForLibrary, removeFlexScript,
                                destroy, resetFlexSDK and the module-scope
                                script-load cache)

JavaScript numbers that the code obtains from parseInt are modelled as
Option Int, where none stands for NaN; every comparison NaN < x or
NaN > x is false, exactly as in JavaScript.  The browser built-ins
atob and JSON.parse are modelled as an oracle parameter of type
String -> Except String JsValue: the code under verification never
inspects how they work, it only consumes their result or catches the
exception they throw (the Except.error carries the thrown message).
Asynchronous behaviour (promises, timers, the window message events) is
modelled by explicit state machines: each DOM object or listener is a
field of the state, a promise settlement is an Option-valued field that
is written at most once (mirroring the ECMAScript guarantee that a
promise settles at most once), and the event handlers of the source
become a step function over a type of events.
-/

/-! ## JavaScript string and number primitives -/

/-- Longest prefix of decimal digits, as used by parseInt with radix 10. -/
def takeDigits : List Char → List Char
  | [] => []
  | c :: cs => if c.isDigit then c :: takeDigits cs else []

/-- Value of a list of decimal digits. -/
def digitsToNat (l : List Char) : Nat :=
  l.foldl (fun a c => a * 10 + (c.toNat - 48)) 0

/-- JavaScript parseInt(s, 10): skip leading whitespace, read an optional
sign and then the longest digit prefix; the result is NaN (modelled as
none) when no digit follows. -/
def jsParseInt (s : String) : Option Int :=
  match s.data.dropWhile (fun c => c = ' ' ∨ c = '\t' ∨ c = '\n' ∨ c = '\r') with
  | '+' :: r => if (takeDigits r).isEmpty then none else some ((digitsToNat (takeDigits r) : Nat) : Int)
  | '-' :: r => if (takeDigits r).isEmpty then none else some (-((digitsToNat (takeDigits r) : Nat) : Int))
  | r => if (takeDigits r).isEmpty then none else some ((digitsToNat (takeDigits r) : Nat) : Int)

/-- JavaScript comparison n < k where n may be NaN: NaN < k is false. -/
def jsLt (o : Option Int) (k : Int) : Bool :=
  match o with
  | some v => decide (v < k)
  | none => false

/-- JavaScript comparison n > k where n may be NaN: NaN > k is false. -/
def jsGt (o : Option Int) (k : Int) : Bool :=
  match o with
  | some v => decide (k < v)
  | none => false

/-- JavaScript String.prototype.padStart with a one-character pad. -/
def jsPadStart (s : String) (n : Nat) (c : Char) : String :=
  if n ≤ s.length then s else String.mk (List.replicate (n - s.length) c) ++ s

/-- Split a character list at every occurrence of a separator character,
keeping empty groups, as JavaScript String.prototype.split does. -/
def splitOnChar (c : Char) : List Char → List (List Char)
  | [] => [[]]
  | x :: xs =>
    if x = c then [] :: splitOnChar c xs
    else match splitOnChar c xs with
      | [] => [[x]]
      | g :: gs => (x :: g) :: gs

/-- JavaScript s.split of a one-character separator. -/
def jsSplit (c : Char) (s : String) : List String :=
  (splitOnChar c s.data).map String.mk

/-- JavaScript String.prototype.includes (substring test). -/
def strContains (s pat : String) : Bool :=
  decide (pat.data <:+: s.data)

/-- JavaScript String.prototype.toLowerCase, per character. -/
def strToLower (s : String) : String :=
  String.mk (s.data.map Char.toLower)

/-- Truthiness of an optional string value, as JavaScript sees it:
undefined and the empty string are falsy. -/
def isTruthyStr (o : Option String) : Bool :=
  match o with
  | some s => s ≠ ""
  | none => false

/-! ## Base64url handling shared by decodeCaptureContext and decodeToken

The sources convert the middle JWT segment from base64url to base64 with
payload.replace of minus by plus and underscore by slash, and then pad:
  base64 + two equal signs .substring(0, (4 - base64.length % 4) % 4)
Note that the pad source string has only two characters, so substring
clamps the requested length. -/

/-- base64url to base64 character translation. -/
def b64OfUrl (s : String) : String :=
  String.mk (s.data.map (fun c => if c = '-' then '+' else if c = '_' then '/' else c))

/-- The padding step: append the prefix of two equal signs of requested
length (4 - n mod 4) mod 4, clamped at 2 by substring. -/
def padB64 (s : String) : String :=
  s ++ String.mk (List.take ((4 - s.length % 4) % 4) ['=', '='])

/-! ## A model of parsed JSON values -/

/-- Values produced by JSON.parse. -/
inductive JsValue where
  | null : JsValue
  | bool : Bool → JsValue
  | num : Int → JsValue
  | str : String → JsValue
  | arr : List JsValue → JsValue
  | obj : List (String × JsValue) → JsValue
deriving Repr

def lookupField : List (String × JsValue) → String → Option JsValue
  | [], _ => none
  | (k, v) :: rest, key => if k = key then some v else lookupField rest key

/-- Property access v.k: undefined (none) unless v is an object with the
field.  Used for every optional-chaining access in the sources. -/
def jsGet (v : JsValue) (k : String) : Option JsValue :=
  match v with
  | .obj fs => lookupField fs k
  | _ => none

/-- JavaScript truthiness of a JSON value. -/
def jsTruthy : JsValue → Bool
  | .null => false
  | .bool b => b
  | .num n => n ≠ 0
  | .str s => s ≠ ""
  | .arr _ => true
  | .obj _ => true

/-- String conversion used by template literals for the bin and suffix
values interpolated into the masked PAN. -/
def jsDisplay : JsValue → String
  | .null => "null"
  | .bool b => cond b "true" "false"
  | .num n => toString n
  | .str s => s
  | .arr _ => ""
  | .obj _ => "[object Object]"

mutual
def decEqJsValue : (a b : JsValue) → Decidable (a = b)
  | .null, .null => .isTrue rfl
  | .bool a, .bool b =>
    if h : a = b then .isTrue (by rw [h]) else .isFalse (by intro hc; cases hc; exact h rfl)
  | .num a, .num b =>
    if h : a = b then .isTrue (by rw [h]) else .isFalse (by intro hc; cases hc; exact h rfl)
  | .str a, .str b =>
    if h : a = b then .isTrue (by rw [h]) else .isFalse (by intro hc; cases hc; exact h rfl)
  | .arr a, .arr b =>
    match decEqJsValueList a b with
    | .isTrue h => .isTrue (by rw [h])
    | .isFalse h => .isFalse (by intro hc; cases hc; exact h rfl)
  | .obj a, .obj b =>
    match decEqJsFields a b with
    | .isTrue h => .isTrue (by rw [h])
    | .isFalse h => .isFalse (by intro hc; cases hc; exact h rfl)
  | .null, .bool _ => .isFalse (by intro hc; cases hc)
  | .null, .num _ => .isFalse (by intro hc; cases hc)
  | .null, .str _ => .isFalse (by intro hc; cases hc)
  | .null, .arr _ => .isFalse (by intro hc; cases hc)
  | .null, .obj _ => .isFalse (by intro hc; cases hc)
  | .bool _, .null => .isFalse (by intro hc; cases hc)
  | .bool _, .num _ => .isFalse (by intro hc; cases hc)
  | .bool _, .str _ => .isFalse (by intro hc; cases hc)
  | .bool _, .arr _ => .isFalse (by intro hc; cases hc)
  | .bool _, .obj _ => .isFalse (by intro hc; cases hc)
  | .num _, .null => .isFalse (by intro hc; cases hc)
  | .num _, .bool _ => .isFalse (by intro hc; cases hc)
  | .num _, .str _ => .isFalse (by intro hc; cases hc)
  | .num _, .arr _ => .isFalse (by intro hc; cases hc)
  | .num _, .obj _ => .isFalse (by intro hc; cases hc)
  | .str _, .null => .isFalse (by intro hc; cases hc)
  | .str _, .bool _ => .isFalse (by intro hc; cases hc)
  | .str _, .num _ => .isFalse (by intro hc; cases hc)
  | .str _, .arr _ => .isFalse (by intro hc; cases hc)
  | .str _, .obj _ => .isFalse (by intro hc; cases hc)
  | .arr _, .null => .isFalse (by intro hc; cases hc)
  | .arr _, .bool _ => .isFalse (by intro hc; cases hc)
  | .arr _, .num _ => .isFalse (by intro hc; cases hc)
  | .arr _, .str _ => .isFalse (by intro hc; cases hc)
  | .arr _, .obj _ => .isFalse (by intro hc; cases hc)
  | .obj _, .null => .isFalse (by intro hc; cases hc)
  | .obj _, .bool _ => .isFalse (by intro hc; cases hc)
  | .obj _, .num _ => .isFalse (by intro hc; cases hc)
  | .obj _, .str _ => .isFalse (by intro hc; cases hc)
  | .obj _, .arr _ => .isFalse (by intro hc; cases hc)

def decEqJsValueList : (a b : List JsValue) → Decidable (a = b)
  | [], [] => .isTrue rfl
  | [], _ :: _ => .isFalse (by intro hc; cases hc)
  | _ :: _, [] => .isFalse (by intro hc; cases hc)
  | x :: xs, y :: ys =>
    match decEqJsValue x y, decEqJsValueList xs ys with
    | .isTrue h1, .isTrue h2 => .isTrue (by rw [h1, h2])
    | .isFalse h1, _ => .isFalse (by intro hc; cases hc; exact h1 rfl)
    | _, .isFalse h2 => .isFalse (by intro hc; cases hc; exact h2 rfl)

def decEqJsFields : (a b : List (String × JsValue)) → Decidable (a = b)
  | [], [] => .isTrue rfl
  | [], _ :: _ => .isFalse (by intro hc; cases hc)
  | _ :: _, [] => .isFalse (by intro hc; cases hc)
  | (k1, v1) :: xs, (k2, v2) :: ys =>
    match decEq k1 k2, decEqJsValue v1 v2, decEqJsFields xs ys with
    | .isTrue h0, .isTrue h1, .isTrue h2 => .isTrue (by rw [h0, h1, h2])
    | .isFalse h0, _, _ => .isFalse (by intro hc; cases hc; exact h0 rfl)
    | _, .isFalse h1, _ => .isFalse (by intro hc; cases hc; exact h1 rfl)
    | _, _, .isFalse h2 => .isFalse (by intro hc; cases hc; exact h2 rfl)
end

instance : DecidableEq JsValue := decEqJsValue

def exceptDecEq {ε α : Type} [DecidableEq ε] [DecidableEq α] :
    DecidableEq (Except ε α) := fun x y =>
  match x, y with
  | .ok a, .ok b =>
    if h : a = b then .isTrue (by rw [h]) else .isFalse (by intro hc; cases hc; exact h rfl)
  | .error a, .error b =>
    if h : a = b then .isTrue (by rw [h]) else .isFalse (by intro hc; cases hc; exact h rfl)
  | .ok _, .error _ => .isFalse (by intro hc; cases hc)
  | .error _, .ok _ => .isFalse (by intro hc; cases hc)

instance {ε α : Type} [DecidableEq ε] [DecidableEq α] : DecidableEq (Except ε α) :=
  exceptDecEq

/-! ## decodeCaptureContext (src/utils/index.ts) -/

/-- Result record of decodeCaptureContext. -/
structure DecodedCaptureContext where
  clientLibrary : JsValue
  clientLibraryIntegrity : Option JsValue
  allowedCardNetworks : Option JsValue
  allowedPaymentTypes : Option JsValue
deriving DecidableEq, Repr

/-- The ctx navigation of decodeCaptureContext: contextData is
decodedJson.ctx[0]?.data when ctx is an array and decodedJson.ctx?.data
otherwise. -/
def extractContextData (j : JsValue) : Option JsValue :=
  match jsGet j "ctx" with
  | some (.arr xs) =>
    match xs.head? with
    | some e => jsGet e "data"
    | none => none
  | some other => jsGet other "data"
  | none => none

/-- contextData?.clientLibrary. -/
def extractClientLibrary (j : JsValue) : Option JsValue :=
  match extractContextData j with
  | some cd => jsGet cd "clientLibrary"
  | none => none

/-- decodeCaptureContext from src/utils/index.ts.  The oracle stands for
atob followed by JSON.parse; an oracle error is the message of the
exception those built-ins throw, which the catch block wraps unless the
message mentions clientLibrary. -/
def decodeCaptureContext (oracle : String → Except String JsValue)
    (captureContext : String) : Except String DecodedCaptureContext :=
  if captureContext = "" then .error "Capture context is required"
  else
    let parts := jsSplit '.' captureContext
    if parts.length ≠ 3 then
      .error "Invalid capture context format - expected JWT with 3 parts"
    else
      let payload := (parts.get? 1).getD ""
      match oracle (padB64 (b64OfUrl payload)) with
      | .error msg =>
        if strContains msg "clientLibrary" then .error msg
        else .error ("Failed to decode capture context: " ++ msg)
      | .ok decodedJson =>
        match extractClientLibrary decodedJson with
        | some cl =>
          if jsTruthy cl then
            .ok { clientLibrary := cl
                  clientLibraryIntegrity :=
                    (extractContextData decodedJson).bind (jsGet · "clientLibraryIntegrity")
                  allowedCardNetworks :=
                    (extractContextData decodedJson).bind (jsGet · "allowedCardNetworks")
                  allowedPaymentTypes :=
                    (extractContextData decodedJson).bind (jsGet · "allowedPaymentTypes") }
          else .error "clientLibrary not found in capture context"
        | none => .error "clientLibrary not found in capture context"

/-! ## FlexMicroform.doTokenize (src/ui/flex-microform.ts) -/

/-- Outcome of the expiry-validation prefix of doTokenize, before the
vendor createToken call.  ok carries the normalized month and year that
are passed to createToken as expirationMonth and expirationYear. -/
inductive TokenizeCheck where
  | missingInput : TokenizeCheck
  | invalidMonth : TokenizeCheck
  | expired : TokenizeCheck
  | ok : String → String → TokenizeCheck
deriving DecidableEq, Repr

/-- Year normalization of doTokenize: a two-character year is expanded by
adding the current century, Math.floor(currentYear / 100) * 100; other
lengths pass through.  When parseInt of the two-character year is NaN the
JavaScript sum is NaN and String(NaN) is the string NaN. -/
def normalizeYear (expiryYear : String) (currentYear : Nat) : String :=
  if expiryYear.length = 2 then
    match jsParseInt expiryYear with
    | some v => toString ((currentYear / 100 * 100 : Int) + v)
    | none => "NaN"
  else expiryYear

/-- The validation prefix of FlexMicroform.doTokenize: the falsy check on
the inputs, month normalization by padStart, year normalization, the
month range check on parseInt of the padded month, and the past-year
check on parseInt of the normalized year against the current year. -/
def doTokenizeValidate (expiryMonth expiryYear : String) (currentYear : Nat) : TokenizeCheck :=
  if expiryMonth = "" ∨ expiryYear = "" then .missingInput
  else if jsLt (jsParseInt (jsPadStart expiryMonth 2 '0')) 1
      || jsGt (jsParseInt (jsPadStart expiryMonth 2 '0')) 12 then .invalidMonth
  else if jsLt (jsParseInt (normalizeYear expiryYear currentYear)) (currentYear : Int) then
    .expired
  else .ok (jsPadStart expiryMonth 2 '0') (normalizeYear expiryYear currentYear)

/-- Card metadata extracted from the transient token by decodeToken. -/
structure TokenMeta where
  maskedPan : String
  cardType : String
deriving DecidableEq, Repr

/-- The all-bullets placeholder masked PAN. -/
def defaultMaskedPan : String := "••••••••••••"

/-- cardNumber.bin or the empty string (likewise for suffix): the field
value when truthy, rendered as a template literal renders it. -/
def getDisplayField (v : JsValue) (k : String) : String :=
  match jsGet v k with
  | some x => if jsTruthy x then jsDisplay x else ""
  | none => ""

/-- The masked-PAN construction of decodeToken from bin and suffix. -/
def buildMaskedPan (bin suffix : String) : String :=
  if bin ≠ "" ∧ suffix ≠ "" then bin ++ "••••••" ++ suffix
  else if bin ≠ "" then bin ++ "••••••••"
  else if suffix ≠ "" then "••••••••" ++ suffix
  else defaultMaskedPan

/-- The card-type selection of decodeToken: the first entry of
cardNumber.detectedCardTypes lowercased when that list is nonempty, else
cardTypeInfo.name lowercased when truthy, else unknown.  Calling
toLowerCase on a non-string throws inside the try block, which the catch
turns into the full placeholder pair; those cases return the placeholder
pair through the second component of the result flag here. -/
def pickCardType (cardNumber cardTypeInfo : Option JsValue)
    (maskedPan : String) : TokenMeta :=
  match cardNumber.bind (jsGet · "detectedCardTypes") with
  | some (.arr (JsValue.str s :: _)) => { maskedPan := maskedPan, cardType := strToLower s }
  | some (.arr (_ :: _)) => { maskedPan := defaultMaskedPan, cardType := "unknown" }
  | _ =>
    match cardTypeInfo.bind (jsGet · "name") with
    | some nm =>
      if jsTruthy nm then
        match nm with
        | .str s => { maskedPan := maskedPan, cardType := strToLower s }
        | _ => { maskedPan := defaultMaskedPan, cardType := "unknown" }
      else { maskedPan := maskedPan, cardType := "unknown" }
    | none => { maskedPan := maskedPan, cardType := "unknown" }

/-- FlexMicroform.decodeToken: split the token on dots, require exactly
three parts, convert the middle part from base64url to base64, pad, and
decode; on any failure return the placeholder metadata. -/
def decodeToken (oracle : String → Except String JsValue) (token : String) : TokenMeta :=
  let parts := jsSplit '.' token
  if parts.length ≠ 3 then { maskedPan := defaultMaskedPan, cardType := "unknown" }
  else
    let payload := (parts.get? 1).getD ""
    match oracle (padB64 (b64OfUrl payload)) with
    | .error _ => { maskedPan := defaultMaskedPan, cardType := "unknown" }
    | .ok decoded =>
      let content := jsGet decoded "content"
      let paymentInfo := content.bind (jsGet · "paymentInformation")
      let card := paymentInfo.bind (jsGet · "card")
      let cardNumber := card.bind (jsGet · "number")
      let cardTypeInfo := card.bind (jsGet · "type")
      let maskedPan :=
        match cardNumber with
        | some cn =>
          if jsTruthy cn then
            buildMaskedPan (getDisplayField cn "bin") (getDisplayField cn "suffix")
          else defaultMaskedPan
        | none => defaultMaskedPan
      pickCardType cardNumber cardTypeInfo maskedPan

/-- Result record of a successful tokenize call. -/
structure FlexTokenizeResult where
  token : String
  maskedPan : String
  cardType : String
  expiryMonth : String
  expiryYear : String
deriving DecidableEq, Repr

/-- The error-message selection of the createToken callback. -/
def tokenizeErrorMessage (err : JsValue) : String :=
  if jsGet err "reason" = some (JsValue.str "CREATE_TOKEN_VALIDATION_FIELDS") then
    "Please check your card details and try again"
  else if jsGet err "reason" = some (JsValue.str "CREATE_TOKEN_TIMEOUT") then
    "Request timed out. Please try again."
  else
    match jsGet err "message" with
    | some m =>
      if jsTruthy m then jsDisplay m
      else match err with
        | .str s => s
        | _ => "Tokenization failed"
    | none =>
      match err with
      | .str s => s
      | _ => "Tokenization failed"

/-- FlexMicroform.doTokenize.  microformInit models whether this.microform
is non-null; err and token model the two arguments the vendor passes to
the createToken callback (err is JsValue.null when the vendor succeeds);
the oracle is the atob plus JSON.parse pair used by decodeToken. -/
def doTokenize (microformInit : Bool) (expiryMonth expiryYear : String)
    (currentYear : Nat) (oracle : String → Except String JsValue)
    (err : JsValue) (token : String) : Except String FlexTokenizeResult :=
  if !microformInit then .error "Microform not initialized. Call initialize() first."
  else
    match doTokenizeValidate expiryMonth expiryYear currentYear with
    | .missingInput => .error "Expiry month and year are required"
    | .invalidMonth => .error "Invalid expiry month. Must be between 01 and 12."
    | .expired => .error "Card has expired. Please use a valid card."
    | .ok month year =>
      if jsTruthy err then .error (tokenizeErrorMessage err)
      else if token = "" then .error "No token received from CyberSource"
      else
        .ok { token := token
              maskedPan := (decodeToken oracle token).maskedPan
              cardType := (decodeToken oracle token).cardType
              expiryMonth := month
              expiryYear := year }

/-! ## DeviceDataCollector (src/ui/device-data-collector.ts) -/

/-- The resolution value of collect: success is always true; the timeout
flag is present (some true) only on the timeout path. -/
structure CollectResult where
  success : Bool
  timeout : Option Bool
deriving DecidableEq, Repr

/-- Events that can reach the collector after collect has set everything
up: a window message with some origin, or the firing of the bounded
timeout timer. -/
inductive CollectEvent where
  | message : String → CollectEvent
  | timeoutFire : CollectEvent
deriving DecidableEq, Repr

/-- State of one collect call: whether this.iframe, this.form and
this.messageListener are non-null, whether the corresponding DOM node or
window listener is attached, whether the setTimeout timer is still
pending, and the settlement of the returned promise.  collect only ever
calls resolve, so settlement by Except.error is impossible by
construction of the step function; the theorem below proves it. -/
structure DDCState where
  iframeRef : Bool
  iframeInDom : Bool
  formRef : Bool
  formInDom : Bool
  listenerRef : Bool
  listenerInWindow : Bool
  timerActive : Bool
  settled : Option (Except String CollectResult)
deriving DecidableEq, Repr

/-- DeviceDataCollector.cleanup: remove the window listener when the
listener field is set and null it, remove the form from the DOM when it
has a parent and null the field, likewise the iframe.  The timer is not
cleared. -/
def ddcCleanup (s : DDCState) : DDCState :=
  let s1 := if s.listenerRef then
      { s with listenerInWindow := false, listenerRef := false }
    else s
  let s2 := if s1.formRef && s1.formInDom then
      { s1 with formInDom := false, formRef := false }
    else { s1 with formRef := false }
  if s2.iframeRef && s2.iframeInDom then
    { s2 with iframeInDom := false, iframeRef := false }
  else { s2 with iframeRef := false }

/-- Settle the collect promise: a promise settles at most once, a second
resolve or reject is a no-op. -/
def ddcSettle (r : Except String CollectResult) (s : DDCState) : DDCState :=
  if s.settled.isNone then { s with settled := some r } else s

/-- Origin allow-list of the message listener: the origin must contain
cardinalcommerce.com or centinelapi. -/
def ddcQualifies (origin : String) : Bool :=
  strContains origin "cardinalcommerce.com" || strContains origin "centinelapi"

/-- One event of the collect lifecycle.  The message listener runs only
while it is attached to the window and resolves with success true after
cleanup when the origin qualifies; the timer handler runs once, cleans up
and resolves with success true and the timeout flag. -/
def ddcStep (s : DDCState) (e : CollectEvent) : DDCState :=
  match e with
  | .message origin =>
    if s.listenerInWindow && ddcQualifies origin then
      ddcSettle (.ok { success := true, timeout := none }) (ddcCleanup s)
    else s
  | .timeoutFire =>
    if s.timerActive then
      ddcSettle (.ok { success := true, timeout := some true })
        (ddcCleanup { s with timerActive := false })
    else s

/-- State right after collect has appended the iframe and form, attached
the listener, armed the timer and submitted the form. -/
def ddcInit : DDCState :=
  { iframeRef := true, iframeInDom := true, formRef := true, formInDom := true
    listenerRef := true, listenerInWindow := true, timerActive := true, settled := none }

/-- Run a whole collect lifecycle over a list of events. -/
def ddcRun (es : List CollectEvent) : DDCState :=
  es.foldl ddcStep ddcInit

/-- Events that can occur before the timeout elapses without completing
the collection: messages from non-qualifying origins.  The timer firing
itself is excluded. -/
def eventBeforeTimeout : CollectEvent → Bool
  | .message origin => !ddcQualifies origin
  | .timeoutFire => false

/-- Invariant of the collect lifecycle: the promise is never rejected,
and as long as it is unresolved the timer is still pending. -/
def ddcInv (s : DDCState) : Prop :=
  (∀ msg, s.settled ≠ some (Except.error msg))
  ∧ (s.timerActive = true ∨ ∃ v, s.settled = some (Except.ok v))

/-- Invariant of the collect lifecycle: each of the iframe, form and
listener fields is null exactly when the corresponding DOM node or window
listener is absent. -/
def ddcPairs (s : DDCState) : Prop :=
  s.listenerRef = s.listenerInWindow
  ∧ s.formRef = s.formInDom
  ∧ s.iframeRef = s.iframeInDom

/-! ## ChallengeModal (src/ui/challenge-modal.ts, settle-once variant) -/

/-- A structurally valid completion message: the data of a window message
event that is a non-null object.  Non-object data is modelled as none at
the event level. -/
structure MsgEnvelope where
  type : String
  transactionId : Option String
deriving DecidableEq, Repr

/-- Settlement of the promise returned by show. -/
inductive ModalOutcome where
  | resolved : MsgEnvelope → ModalOutcome
  | rejected : String → ModalOutcome
deriving DecidableEq, Repr

/-- Per-show configuration: the expected completion message type
(options completionMessageType defaulted to 3DS_COMPLETE) and the
optional expected transaction id. -/
structure ModalConfig where
  expectedType : String
  expectedTxn : Option String
deriving DecidableEq, Repr

/-- State of one show call of the challenge modal. -/
structure ModalState where
  isResolved : Bool
  settled : Option ModalOutcome
  listenerAttached : Bool
  timerActive : Bool
  overlayInDom : Bool
  formInDom : Bool
  rejectPromiseSet : Bool
deriving DecidableEq, Repr

/-- ChallengeModal.cleanup: clear the timer, remove the message listener,
remove the overlay (which contains the modal and iframe), remove the
form, null the stored reject callback. -/
def modalCleanup (s : ModalState) : ModalState :=
  { s with timerActive := false, listenerAttached := false,
           overlayInDom := false, formInDom := false, rejectPromiseSet := false }

/-- Promise settlement: at most once. -/
def modalSettle (o : ModalOutcome) (s : ModalState) : ModalState :=
  if s.settled.isNone then { s with settled := some o } else s

/-- safeResolve of show: return when isResolved is already set, otherwise
set it, run cleanup, and resolve the promise. -/
def safeResolve (env : MsgEnvelope) (s : ModalState) : ModalState :=
  if s.isResolved then s
  else modalSettle (.resolved env) (modalCleanup { s with isResolved := true })

/-- safeReject of show: return when isResolved is already set, otherwise
set it, run cleanup, and reject the promise. -/
def safeReject (msg : String) (s : ModalState) : ModalState :=
  if s.isResolved then s
  else modalSettle (.rejected msg) (modalCleanup { s with isResolved := true })

/-- Events that can reach the modal: a window message (none when the data
is absent or not an object), the challenge timeout firing, and a manual
close call. -/
inductive ModalEvent where
  | message : Option MsgEnvelope → ModalEvent
  | timeoutFire : ModalEvent
  | closeCall : ModalEvent
deriving DecidableEq, Repr

/-- One event of the show lifecycle, following the listener body, the
timeout handler and close of the source.  The listener checks isResolved,
the message shape, the type match against the expected type or
3DS_CHALLENGE_COMPLETE, and the transaction id when both sides carry a
truthy one; the timer handler rejects with the timeout error; close
rejects with the manual-close error only when not already resolved, and
always cleans up. -/
def modalStep (cfg : ModalConfig) (s : ModalState) (e : ModalEvent) : ModalState :=
  match e with
  | .message d =>
    if !s.listenerAttached then s
    else if s.isResolved then s
    else
      match d with
      | none => s
      | some env =>
        if !(env.type == cfg.expectedType || env.type == "3DS_CHALLENGE_COMPLETE") then s
        else if isTruthyStr cfg.expectedTxn && isTruthyStr env.transactionId
            && env.transactionId != cfg.expectedTxn then s
        else safeResolve env s
  | .timeoutFire =>
    if !s.timerActive then s
    else safeReject "Challenge timed out. Please try again." { s with timerActive := false }
  | .closeCall =>
    let s1 :=
      if !s.isResolved then
        let s0 := if s.rejectPromiseSet then modalSettle (.rejected "Challenge closed manually") s else s
        { s0 with isResolved := true }
      else s
    modalCleanup s1

/-- State right after show has built the DOM, attached the listener,
armed the timer and submitted the step-up form. -/
def modalShowInit : ModalState :=
  { isResolved := false, settled := none, listenerAttached := true, timerActive := true,
    overlayInDom := true, formInDom := true, rejectPromiseSet := true }

/-- ChallengeModal.destroy: reject the pending promise when not yet
resolved, mark resolved, clean up. -/
def modalDestroy (s : ModalState) : ModalState :=
  let s1 := if !s.isResolved && s.rejectPromiseSet then
      modalSettle (.rejected "ChallengeModal destroyed") s
    else s
  modalCleanup { s1 with isResolved := true }

/-! ## WebClient script loader and facade (src/index.ts) -/

/-- A script tag in the document: its src and whether it carries the
data-flex-sdk attribute that loadFlexScript sets on tags it creates. -/
structure ScriptTag where
  src : String
  taggedFlex : Bool
deriving DecidableEq, Repr

/-- Module-scope loader state: the script-load cache (flexLoadPromise,
identified by a monotone id, and loadedFlexScriptUrl), the window.Flex
global, the flex-related script tags in the document, and the list of
underlying load attempts that have been started (one entry per
loadFlexScript invocation, which is also one poll loop). -/
structure LoaderState where
  flexLoadPromise : Option Nat
  loadedFlexScriptUrl : Option String
  flexGlobal : Bool
  scriptTags : List ScriptTag
  nextId : Nat
  attempts : List (Nat × String)
deriving DecidableEq, Repr

/-- Remove the first tag satisfying the predicate, as the singular
document.querySelector followed by removeChild removes at most the first
matching element in document order. -/
def removeFirstBy (p : ScriptTag → Bool) : List ScriptTag → List ScriptTag
  | [] => []
  | t :: ts => if p t then ts else t :: removeFirstBy p ts

/-- WebClient.removeFlexScript: querySelectorAll removes every script tag
with the data-flex-sdk attribute; then the singular querySelector removes
the first remaining tag whose src matches loadedFlexScriptUrl, when any;
finally window.Flex is deleted. -/
def removeFlexScript (s : LoaderState) : LoaderState :=
  let tags1 := s.scriptTags.filter (fun t => !t.taggedFlex)
  let tags2 :=
    match s.loadedFlexScriptUrl with
    | some u => removeFirstBy (fun t => t.src == u) tags1
    | none => tags1
  { s with scriptTags := tags2, flexGlobal := false }

/-- The synchronous prefix of the loadFlexScript promise executor: reuse
an existing script tag for the same URL (resolving at once when the
global is already there), or create and append a new tag carrying the
data-flex-sdk attribute.  The asynchronous poll loop and the load and
error events happen later and are not needed by the claims. -/
def loadFlexScriptSync (s : LoaderState) (url : String) : LoaderState :=
  if s.scriptTags.any (fun t => t.src == url) then
    if s.flexGlobal then { s with loadedFlexScriptUrl := some url } else s
  else { s with scriptTags := s.scriptTags ++ [{ src := url, taggedFlex := true }] }

/-- WebClient.waitForLibrary: return at once when the global is present
and the cached URL matches; tear down and reset the cache when a
different URL than the previously loaded one is requested; then share the
in-flight promise, creating it (and starting the one underlying load)
only when none exists.  The second component is the promise the caller
awaits, none when the function returned without one. -/
def waitForLibrary (s : LoaderState) (url : String) : LoaderState × Option Nat :=
  if s.flexGlobal && s.loadedFlexScriptUrl == some url then (s, none)
  else
    let s1 :=
      if isTruthyStr s.loadedFlexScriptUrl && s.loadedFlexScriptUrl != some url then
        let s0 := removeFlexScript s
        { s0 with flexLoadPromise := none, loadedFlexScriptUrl := none }
      else s
    match s1.flexLoadPromise with
    | some pid => (s1, some pid)
    | none =>
      let pid := s1.nextId
      let s2 := { s1 with flexLoadPromise := some pid, nextId := pid + 1,
                          attempts := s1.attempts ++ [(pid, url)] }
      (loadFlexScriptSync s2 url, some pid)

/-- State owned by one WebClient together with the module-scope loader
state: the device-data collector, the challenge modal, whether a flex
microform adapter is currently held, and the loader. -/
structure WebClientState where
  loader : LoaderState
  ddc : DDCState
  modal : ModalState
  flexMicroform : Bool
deriving DecidableEq, Repr

/-- WebClient.destroy: destroy the collector (its cleanup), destroy the
modal, destroy and null the microform when present.  The Flex script tag,
window.Flex and the module-scope cache are deliberately not touched. -/
def webClientDestroy (w : WebClientState) : WebClientState :=
  { w with ddc := ddcCleanup w.ddc, modal := modalDestroy w.modal, flexMicroform := false }

/-- WebClient.resetFlexSDK: remove the script and the global, then clear
flexLoadPromise and loadedFlexScriptUrl. -/
def resetFlexSDK (w : WebClientState) : WebClientState :=
  let l := removeFlexScript w.loader
  { w with loader := { l with flexLoadPromise := none, loadedFlexScriptUrl := none } }

/-! # Theorems -/

/-! ## String length helpers -/

theorem strlen_append (a b : String) : (a ++ b).length = a.length + b.length := by
  cases a with
  | mk la =>
    cases b with
    | mk lb =>
      show (la ++ lb).length = la.length + lb.length
      exact List.length_append la lb

theorem strlen_mk (l : List Char) : (String.mk l).length = l.length := rfl

/-! ## Claim C2: tokenize month and year validation -/

/-- Claim C2: for every nonempty input pair, doTokenize rejects with the
invalid-month error whenever parseInt of the normalized month is strictly
below 1 or strictly above 12; whenever the month check passes and parseInt
of the normalized year is strictly below the current year it rejects with
the expired error; and a normalized year equal to the current year is not
rejected, the validation succeeds. -/
theorem tokenize_expiry_validation (m y : String) (cy : Nat)
    (hm : m ≠ "") (hy : y ≠ "") :
    (∀ mv : Int, jsParseInt (jsPadStart m 2 '0') = some mv → (mv < 1 ∨ 12 < mv) →
        doTokenizeValidate m y cy = TokenizeCheck.invalidMonth)
    ∧ (doTokenizeValidate m y cy ≠ TokenizeCheck.invalidMonth →
        ∀ yv : Int, jsParseInt (normalizeYear y cy) = some yv → yv < (cy : Int) →
          doTokenizeValidate m y cy = TokenizeCheck.expired)
    ∧ (doTokenizeValidate m y cy ≠ TokenizeCheck.invalidMonth →
        jsParseInt (normalizeYear y cy) = some (cy : Int) →
          doTokenizeValidate m y cy
            = TokenizeCheck.ok (jsPadStart m 2 '0') (normalizeYear y cy)) := by
  have h0 : ¬(m = "" ∨ y = "") := by
    rintro (h | h)
    · exact hm h
    · exact hy h
  refine ⟨?_, ?_, ?_⟩
  · intro mv hparse hrange
    have hb : (jsLt (jsParseInt (jsPadStart m 2 '0')) 1
        || jsGt (jsParseInt (jsPadStart m 2 '0')) 12) = true := by
      rw [hparse]
      simp only [jsLt, jsGt, Bool.or_eq_true, decide_eq_true_eq]
      omega
    simp [doTokenizeValidate, h0, hb]
  · intro hne yv hparse hlt
    have hb : (jsLt (jsParseInt (jsPadStart m 2 '0')) 1
        || jsGt (jsParseInt (jsPadStart m 2 '0')) 12) = false := by
      by_contra hc
      rw [Bool.not_eq_false] at hc
      exact hne (by simp [doTokenizeValidate, h0, hc])
    have hy2 : jsLt (jsParseInt (normalizeYear y cy)) (cy : Int) = true := by
      rw [hparse]
      simp only [jsLt, decide_eq_true_eq]
      omega
    simp [doTokenizeValidate, h0, hb, hy2]
  · intro hne hparse
    have hb : (jsLt (jsParseInt (jsPadStart m 2 '0')) 1
        || jsGt (jsParseInt (jsPadStart m 2 '0')) 12) = false := by
      by_contra hc
      rw [Bool.not_eq_false] at hc
      exact hne (by simp [doTokenizeValidate, h0, hc])
    have hy2 : jsLt (jsParseInt (normalizeYear y cy)) (cy : Int) = false := by
      rw [hparse]
      simp [jsLt]
    simp [doTokenizeValidate, h0, hb, hy2]

/-- Witness for C2 at concrete inputs: month 13 is rejected as invalid,
and year 2025 under current year 2025 passes validation. -/
theorem tokenize_expiry_validation_witness :
    doTokenizeValidate "13" "2030" 2025 = TokenizeCheck.invalidMonth
    ∧ doTokenizeValidate "01" "2025" 2025 = TokenizeCheck.ok "01" "2025" := by
  constructor
  · exact (tokenize_expiry_validation "13" "2030" 2025 (by decide) (by decide)).1
      13 (by decide) (by omega)
  · have h := (tokenize_expiry_validation "01" "2025" 2025 (by decide) (by decide)).2.2
      (by decide) (by decide)
    have e1 : jsPadStart "01" 2 '0' = "01" := by decide
    have e2 : normalizeYear "2025" 2025 = "2025" := by decide
    rw [e1, e2] at h
    exact h

/-! ## Claim C3: tokenize normalizes month and year -/

/-- Claim C3: for every expiry input that passes validation, the month is
normalized by left-padding to two digits with the zero character and the
year by adding the current century when it has two digits; the normalized
values are the expirationMonth and expirationYear passed onward and are
returned as expiryMonth and expiryYear of the tokenize result; in
particular the two-digit year 29 under current year 2025 becomes 2029. -/
theorem tokenize_normalizes_expiry (m y a b t : String) (cy : Nat)
    (oracle : String → Except String JsValue)
    (hok : doTokenizeValidate m y cy = TokenizeCheck.ok a b) (ht : t ≠ "") :
    doTokenize true m y cy oracle JsValue.null t
      = Except.ok { token := t
                    maskedPan := (decodeToken oracle t).maskedPan
                    cardType := (decodeToken oracle t).cardType
                    expiryMonth := jsPadStart m 2 '0'
                    expiryYear := normalizeYear y cy }
    ∧ a = jsPadStart m 2 '0' ∧ b = normalizeYear y cy
    ∧ (∀ v : Int, y.length = 2 → jsParseInt y = some v →
        normalizeYear y cy = toString ((cy / 100 * 100 : Int) + v))
    ∧ normalizeYear "29" 2025 = "2029" := by
  have hab : a = jsPadStart m 2 '0' ∧ b = normalizeYear y cy := by
    unfold doTokenizeValidate at hok
    split_ifs at hok <;> simp_all
  refine ⟨?_, hab.1, hab.2, ?_, by decide⟩
  · simp [doTokenize, hok, jsTruthy, ht, hab.1, hab.2]
  · intro v hlen hv
    simp [normalizeYear, hlen, hv]

/-- Witness for C3: month 7 and two-digit year 29 under current year 2025
tokenize successfully with normalized expiry 07 and 2029. -/
theorem tokenize_normalizes_expiry_witness :
    doTokenize true "7" "29" 2025 (fun _ => Except.error "e") JsValue.null "t0"
      = Except.ok { token := "t0"
                    maskedPan := (decodeToken (fun _ => Except.error "e") "t0").maskedPan
                    cardType := (decodeToken (fun _ => Except.error "e") "t0").cardType
                    expiryMonth := jsPadStart "7" 2 '0'
                    expiryYear := normalizeYear "29" 2025 }
    ∧ normalizeYear "29" 2025 = "2029" := by
  have h := tokenize_normalizes_expiry "7" "29" (jsPadStart "7" 2 '0')
      (normalizeYear "29" 2025) "t0" 2025 (fun _ => Except.error "e")
      (by decide) (by decide)
  exact ⟨h.1, h.2.2.2.2⟩

/-! ## Claim C7: base64 padding arithmetic -/

/-- Counterexample for C7 as stated: for the one-character payload, whose
length is 1 modulo 4, the substring clamp of the two-character pad source
appends only two equal signs, so the padded length is 3, which is neither
length plus (4 - length mod 4) mod 4 nor a multiple of 4. -/
theorem pad_base64_mod1_cex :
    "A".length % 4 = 1
    ∧ (padB64 "A").length = "A".length + 2
    ∧ ¬((padB64 "A").length = "A".length + (4 - "A".length % 4) % 4)
    ∧ ¬((padB64 "A").length % 4 = 0) := by decide

/-- Claim C7 amended: for every payload string whose length is not 1
modulo 4, the padding step appends (4 - n mod 4) mod 4 equal signs and
the padded length is a multiple of 4; in the excluded case n mod 4 = 1
the code appends only two characters because the pad source has two. -/
theorem pad_base64_length_amended (s : String) (h : s.length % 4 ≠ 1) :
    (padB64 s).length = s.length + (4 - s.length % 4) % 4
    ∧ (padB64 s).length % 4 = 0 := by
  have hm : s.length % 4 < 4 := Nat.mod_lt _ (by omega)
  have hlen : (padB64 s).length = s.length + min ((4 - s.length % 4) % 4) 2 := by
    unfold padB64
    rw [strlen_append]
    have h2 : (String.mk (List.take ((4 - s.length % 4) % 4) ['=', '='])).length
        = min ((4 - s.length % 4) % 4) 2 := by
      rw [strlen_mk, List.length_take]
      rfl
    rw [h2]
  constructor
  · rw [hlen]
    omega
  · rw [hlen]
    omega

/-- Witness for C7 amended at a two-character payload. -/
theorem pad_base64_length_amended_witness :
    (padB64 "ab").length = 4 ∧ (padB64 "ab").length % 4 = 0 := by
  have h := pad_base64_length_amended "ab" (by decide)
  refine ⟨?_, h.2⟩
  rw [h.1]
  decide

/-! ## Claim C10: non-numeric month passes the expiry validation -/

/-- Claim C10: the month string ab does not denote an integer (parseInt
yields NaN, so both range comparisons are false), yet with a valid year
the validation does not reject with the invalid-month error and the
tokenization proceeds to the vendor createToken call with the unvalidated
month, which also appears in the result. -/
theorem tokenize_accepts_nonnumeric_month :
    jsParseInt "ab" = none
    ∧ doTokenizeValidate "ab" "2030" 2025 = TokenizeCheck.ok "ab" "2030"
    ∧ doTokenize true "ab" "2030" 2025 (fun _ => Except.error "e") JsValue.null "t0"
      = Except.ok { token := "t0", maskedPan := defaultMaskedPan, cardType := "unknown",
                    expiryMonth := "ab", expiryYear := "2030" } := by decide

/-! ## Claim C4: decodeCaptureContext error paths -/

/-- Counterexample for C4 as stated: the empty input string has a single
(empty) dot-segment, hence fewer than three, yet decodeCaptureContext
fails with the required-input error, not the format error. -/
theorem decode_capture_context_empty_cex :
    (jsSplit '.' "").length < 3
    ∧ decodeCaptureContext (fun _ => Except.error "boom") ""
        = Except.error "Capture context is required"
    ∧ decodeCaptureContext (fun _ => Except.error "boom") ""
        ≠ Except.error "Invalid capture context format - expected JWT with 3 parts" := by
  decide

/-- Claim C4 amended: for every nonempty input with fewer than three
dot-segments, decodeCaptureContext fails with the format error; and for
every three-segment input whose padded middle segment decodes to a JSON
value in which the clientLibrary navigation finds nothing,
decodeCaptureContext fails with the missing-field error.  The empty input
fails earlier with the required-input error. -/
theorem decode_capture_context_errors :
    (∀ (oracle : String → Except String JsValue) (cc : String),
        cc ≠ "" → (jsSplit '.' cc).length < 3 →
        decodeCaptureContext oracle cc
          = Except.error "Invalid capture context format - expected JWT with 3 parts")
    ∧ (∀ (oracle : String → Except String JsValue) (cc : String) (j : JsValue),
        (jsSplit '.' cc).length = 3 →
        oracle (padB64 (b64OfUrl (((jsSplit '.' cc).get? 1).getD ""))) = Except.ok j →
        extractClientLibrary j = none →
        decodeCaptureContext oracle cc
          = Except.error "clientLibrary not found in capture context") := by
  constructor
  · intro oracle cc hcc hlen
    have hne : (jsSplit '.' cc).length ≠ 3 := by omega
    simp [decodeCaptureContext, hcc, hne]
  · intro oracle cc j hlen horacle hcl
    have hcc : cc ≠ "" := by
      intro h
      rw [h] at hlen
      exact absurd hlen (by decide)
    have hne : ¬((jsSplit '.' cc).length ≠ 3) := by omega
    simp only [List.get?_eq_getElem?] at horacle
    simp [decodeCaptureContext, hcc, hne, horacle, hcl]

/-- Witness for C4 amended: a two-segment input yields the format error;
a three-segment input whose payload decodes to an empty object yields the
missing-field error. -/
theorem decode_capture_context_errors_witness :
    decodeCaptureContext (fun _ => Except.error "boom") "a.b"
      = Except.error "Invalid capture context format - expected JWT with 3 parts"
    ∧ decodeCaptureContext (fun _ => Except.ok (JsValue.obj [])) "a.b.c"
      = Except.error "clientLibrary not found in capture context" := by
  constructor
  · exact decode_capture_context_errors.1 (fun _ => Except.error "boom") "a.b"
      (by decide) (by decide)
  · exact decode_capture_context_errors.2 (fun _ => Except.ok (JsValue.obj [])) "a.b.c"
      (JsValue.obj []) (by decide) rfl (by decide)

/-! ## Device data collector lemmas -/

theorem ddcCleanup_settled (s : DDCState) : (ddcCleanup s).settled = s.settled := by
  unfold ddcCleanup
  cases hl : s.listenerRef <;> cases hf : s.formRef <;> cases hfd : s.formInDom <;>
    cases hi : s.iframeRef <;> cases hid : s.iframeInDom <;> simp [hl, hf, hfd, hi, hid]

theorem ddcCleanup_timer (s : DDCState) : (ddcCleanup s).timerActive = s.timerActive := by
  unfold ddcCleanup
  cases hl : s.listenerRef <;> cases hf : s.formRef <;> cases hfd : s.formInDom <;>
    cases hi : s.iframeRef <;> cases hid : s.iframeInDom <;> simp [hl, hf, hfd, hi, hid]

theorem ddcSettle_preserves (r : Except String CollectResult) (s : DDCState)
    (q : Except String CollectResult) (h : s.settled = some q) :
    (ddcSettle r s).settled = some q := by
  simp [ddcSettle, h]

theorem ddcStep_settled_mono (s : DDCState) (e : CollectEvent)
    (q : Except String CollectResult) (h : s.settled = some q) :
    (ddcStep s e).settled = some q := by
  cases e with
  | message o =>
    by_cases hg : (s.listenerInWindow && ddcQualifies o) = true
    · simp only [ddcStep, hg, if_true]
      exact ddcSettle_preserves _ _ q (by rw [ddcCleanup_settled]; exact h)
    · simp only [ddcStep, hg, if_false]
      exact h
  | timeoutFire =>
    by_cases hg : s.timerActive = true
    · simp only [ddcStep, hg, if_true]
      exact ddcSettle_preserves _ _ q (by rw [ddcCleanup_settled]; exact h)
    · simp only [ddcStep, hg, if_false]
      exact h

theorem ddcFoldl_settled_mono (es : List CollectEvent) (s : DDCState)
    (q : Except String CollectResult) (h : s.settled = some q) :
    (es.foldl ddcStep s).settled = some q := by
  induction es generalizing s with
  | nil => exact h
  | cons e es ih => exact ih _ (ddcStep_settled_mono s e q h)

theorem ddcStep_inv (s : DDCState) (e : CollectEvent) (h : ddcInv s) :
    ddcInv (ddcStep s e) := by
  obtain ⟨h1, h2⟩ := h
  cases e with
  | message o =>
    by_cases hg : (s.listenerInWindow && ddcQualifies o) = true
    · simp only [ddcStep, hg, if_true]
      cases hs : s.settled with
      | none =>
        have hset : (ddcSettle (.ok { success := true, timeout := none })
            (ddcCleanup s)).settled = some (.ok { success := true, timeout := none }) := by
          simp [ddcSettle, ddcCleanup_settled, hs]
        refine ⟨fun msg => by rw [hset]; simp, Or.inr ⟨_, hset⟩⟩
      | some q =>
        have hset := ddcSettle_preserves (.ok { success := true, timeout := none })
          (ddcCleanup s) q (by rw [ddcCleanup_settled]; exact hs)
        cases q with
        | error msg => exact absurd hs (h1 msg)
        | ok v => exact ⟨fun msg => by rw [hset]; simp, Or.inr ⟨v, hset⟩⟩
    · simp only [ddcStep, hg, if_false]
      exact ⟨h1, h2⟩
  | timeoutFire =>
    by_cases hg : s.timerActive = true
    · simp only [ddcStep, hg, if_true]
      cases hs : s.settled with
      | none =>
        have hset : (ddcSettle (.ok { success := true, timeout := some true })
            (ddcCleanup { s with timerActive := false, settled := none })).settled
            = some (.ok { success := true, timeout := some true }) := by
          simp [ddcSettle, ddcCleanup_settled]
        refine ⟨fun msg => by rw [hset]; simp, Or.inr ⟨_, hset⟩⟩
      | some q =>
        have hset := ddcSettle_preserves (.ok { success := true, timeout := some true })
          (ddcCleanup { s with timerActive := false, settled := some q }) q
          (by rw [ddcCleanup_settled])
        cases q with
        | error msg => exact absurd hs (h1 msg)
        | ok v => exact ⟨fun msg => by rw [hset]; simp, Or.inr ⟨v, hset⟩⟩
    · simp only [ddcStep, hg, if_false]
      exact ⟨h1, h2⟩

theorem ddcFoldl_inv (es : List CollectEvent) (s : DDCState) (h : ddcInv s) :
    ddcInv (es.foldl ddcStep s) := by
  induction es generalizing s with
  | nil => exact h
  | cons e es ih => exact ih _ (ddcStep_inv s e h)

theorem ddcRun_inv (es : List CollectEvent) : ddcInv (ddcRun es) :=
  ddcFoldl_inv es ddcInit ⟨fun _ => by simp [ddcInit], Or.inl rfl⟩

theorem ddc_prefix_noop (es : List CollectEvent) (h : es.all eventBeforeTimeout = true) :
    es.foldl ddcStep ddcInit = ddcInit := by
  induction es with
  | nil => rfl
  | cons e es ih =>
    rw [List.all_cons, Bool.and_eq_true] at h
    have hstep : ddcStep ddcInit e = ddcInit := by
      cases e with
      | message o =>
        have hq : ddcQualifies o = false := by
          have := h.1
          simpa [eventBeforeTimeout] using this
        simp [ddcStep, ddcInit, hq]
      | timeoutFire => exact absurd h.1 (by simp [eventBeforeTimeout])
    rw [List.foldl_cons, hstep]
    exact ih h.2

theorem ddcSettle_timer (r : Except String CollectResult) (s : DDCState) :
    (ddcSettle r s).timerActive = s.timerActive := by
  unfold ddcSettle
  split_ifs <;> rfl

theorem ddcStep_timeout_timer (s : DDCState) :
    (ddcStep s CollectEvent.timeoutFire).timerActive = false := by
  by_cases hg : s.timerActive = true
  · simp only [ddcStep, hg, if_true]
    rw [ddcSettle_timer, ddcCleanup_timer]
  · simp only [ddcStep, hg, if_false]
    simpa using hg

/-! ## Claim C5: device data collection always resolves -/

/-- Claim C5: collect never rejects (no run settles with an error); every
run in which the timeout timer fires resolves; and when no qualifying
message arrives before the timer fires, the resolution value is exactly
success true with the timeout flag set. -/
theorem ddc_collect_resolves :
    (∀ (es : List CollectEvent) (msg : String),
        (ddcRun es).settled ≠ some (Except.error msg))
    ∧ (∀ pre post : List CollectEvent,
        ∃ v, (ddcRun (pre ++ CollectEvent.timeoutFire :: post)).settled
          = some (Except.ok v))
    ∧ (∀ pre post : List CollectEvent, pre.all eventBeforeTimeout = true →
        (ddcRun (pre ++ CollectEvent.timeoutFire :: post)).settled
          = some (Except.ok { success := true, timeout := some true })) := by
  have hsplit : ∀ pre post : List CollectEvent,
      ddcRun (pre ++ CollectEvent.timeoutFire :: post)
        = post.foldl ddcStep (ddcStep (ddcRun pre) CollectEvent.timeoutFire) := by
    intro pre post
    unfold ddcRun
    rw [List.foldl_append, List.foldl_cons]
  refine ⟨fun es msg => (ddcRun_inv es).1 msg, ?_, ?_⟩
  · intro pre post
    rw [hsplit]
    have hmid := ddcStep_inv (ddcRun pre) CollectEvent.timeoutFire (ddcRun_inv pre)
    rcases hmid.2 with ht | ⟨v, hv⟩
    · rw [ddcStep_timeout_timer] at ht
      exact absurd ht (by simp)
    · exact ⟨v, ddcFoldl_settled_mono post _ _ hv⟩
  · intro pre post hall
    rw [hsplit]
    have hpre : ddcRun pre = ddcInit := ddc_prefix_noop pre hall
    rw [hpre]
    have hstep : (ddcStep ddcInit CollectEvent.timeoutFire).settled
        = some (Except.ok { success := true, timeout := some true }) := by decide
    exact ddcFoldl_settled_mono post _ _ hstep

/-- Witness for C5: one non-qualifying message followed by the timeout
resolves with success true and the timeout flag. -/
theorem ddc_collect_resolves_witness :
    (ddcRun [CollectEvent.message "https://example.org", CollectEvent.timeoutFire]).settled
      = some (Except.ok { success := true, timeout := some true }) :=
  ddc_collect_resolves.2.2 [CollectEvent.message "https://example.org"] [] (by decide)

/-! ## Device data collector cleanup lemmas -/

theorem ddcSettle_parts (r : Except String CollectResult) (s : DDCState) :
    (ddcSettle r s).iframeRef = s.iframeRef
    ∧ (ddcSettle r s).iframeInDom = s.iframeInDom
    ∧ (ddcSettle r s).formRef = s.formRef
    ∧ (ddcSettle r s).formInDom = s.formInDom
    ∧ (ddcSettle r s).listenerRef = s.listenerRef
    ∧ (ddcSettle r s).listenerInWindow = s.listenerInWindow := by
  unfold ddcSettle
  split_ifs <;> simp

theorem ddcCleanup_clears (s : DDCState) (hp : ddcPairs s) :
    (ddcCleanup s).iframeRef = false
    ∧ (ddcCleanup s).iframeInDom = false
    ∧ (ddcCleanup s).formRef = false
    ∧ (ddcCleanup s).formInDom = false
    ∧ (ddcCleanup s).listenerRef = false
    ∧ (ddcCleanup s).listenerInWindow = false := by
  obtain ⟨h1, h2, h3⟩ := hp
  unfold ddcCleanup
  cases hl : s.listenerRef <;> cases hf : s.formRef <;> cases hi : s.iframeRef <;>
    simp_all

theorem ddcStep_pairs (s : DDCState) (e : CollectEvent) (hp : ddcPairs s) :
    ddcPairs (ddcStep s e) := by
  cases e with
  | message o =>
    by_cases hg : (s.listenerInWindow && ddcQualifies o) = true
    · obtain ⟨p1, p2, p3, p4, p5, p6⟩ :=
        ddcSettle_parts (.ok { success := true, timeout := none }) (ddcCleanup s)
      obtain ⟨c1, c2, c3, c4, c5, c6⟩ := ddcCleanup_clears s hp
      simp only [ddcStep, hg, if_true]
      exact ⟨by rw [p5, c5, p6, c6], by rw [p3, c3, p4, c4], by rw [p1, c1, p2, c2]⟩
    · simp only [ddcStep, hg, if_false]
      exact hp
  | timeoutFire =>
    by_cases hg : s.timerActive = true
    · have hp2 : ddcPairs { s with timerActive := false } := hp
      obtain ⟨p1, p2, p3, p4, p5, p6⟩ :=
        ddcSettle_parts (.ok { success := true, timeout := some true })
          (ddcCleanup { s with timerActive := false })
      obtain ⟨c1, c2, c3, c4, c5, c6⟩ := ddcCleanup_clears { s with timerActive := false } hp2
      simp only [ddcStep, hg, if_true]
      exact ⟨by rw [p5, c5, p6, c6], by rw [p3, c3, p4, c4], by rw [p1, c1, p2, c2]⟩
    · simp only [ddcStep, hg, if_false]
      exact hp

theorem ddcRun_pairs (es : List CollectEvent) : ddcPairs (ddcRun es) := by
  have : ∀ (l : List CollectEvent) (s : DDCState), ddcPairs s → ddcPairs (l.foldl ddcStep s) := by
    intro l
    induction l with
    | nil => exact fun s h => h
    | cons e l ih => exact fun s h => ih _ (ddcStep_pairs s e h)
  exact this es ddcInit ⟨rfl, rfl, rfl⟩

/-! ## Claim C6: cleanup on every completion path -/

/-- Claim C6: in every reachable state of a collect lifecycle, whenever
an event settles the promise (a qualifying message or the timer firing),
the post-state has the iframe and form out of the DOM, the message
listener detached, and the iframe, form and listener fields null. -/
theorem ddc_cleanup_on_completion (es : List CollectEvent) (e : CollectEvent)
    (h : (ddcStep (ddcRun es) e).settled ≠ (ddcRun es).settled) :
    (ddcStep (ddcRun es) e).iframeRef = false
    ∧ (ddcStep (ddcRun es) e).iframeInDom = false
    ∧ (ddcStep (ddcRun es) e).formRef = false
    ∧ (ddcStep (ddcRun es) e).formInDom = false
    ∧ (ddcStep (ddcRun es) e).listenerRef = false
    ∧ (ddcStep (ddcRun es) e).listenerInWindow = false := by
  have hp := ddcRun_pairs es
  cases e with
  | message o =>
    by_cases hg : ((ddcRun es).listenerInWindow && ddcQualifies o) = true
    · obtain ⟨p1, p2, p3, p4, p5, p6⟩ :=
        ddcSettle_parts (.ok { success := true, timeout := none }) (ddcCleanup (ddcRun es))
      obtain ⟨c1, c2, c3, c4, c5, c6⟩ := ddcCleanup_clears (ddcRun es) hp
      simp only [ddcStep, hg, if_true]
      exact ⟨by rw [p1, c1], by rw [p2, c2], by rw [p3, c3], by rw [p4, c4],
        by rw [p5, c5], by rw [p6, c6]⟩
    · refine absurd ?_ h
      simp [ddcStep, hg]
  | timeoutFire =>
    by_cases hg : (ddcRun es).timerActive = true
    · have hp2 : ddcPairs { ddcRun es with timerActive := false } := hp
      obtain ⟨p1, p2, p3, p4, p5, p6⟩ :=
        ddcSettle_parts (.ok { success := true, timeout := some true })
          (ddcCleanup { ddcRun es with timerActive := false })
      obtain ⟨c1, c2, c3, c4, c5, c6⟩ :=
        ddcCleanup_clears { ddcRun es with timerActive := false } hp2
      simp only [ddcStep, hg, if_true]
      exact ⟨by rw [p1, c1], by rw [p2, c2], by rw [p3, c3], by rw [p4, c4],
        by rw [p5, c5], by rw [p6, c6]⟩
    · refine absurd ?_ h
      simp [ddcStep, hg]

/-- Witness for C6: the timeout firing in the initial collect state
settles the promise and the post-state is fully cleaned up. -/
theorem ddc_cleanup_on_completion_witness :
    (ddcStep (ddcRun []) CollectEvent.timeoutFire).settled ≠ (ddcRun []).settled
    ∧ ((ddcStep (ddcRun []) CollectEvent.timeoutFire).iframeRef = false
       ∧ (ddcStep (ddcRun []) CollectEvent.timeoutFire).iframeInDom = false
       ∧ (ddcStep (ddcRun []) CollectEvent.timeoutFire).formRef = false
       ∧ (ddcStep (ddcRun []) CollectEvent.timeoutFire).formInDom = false
       ∧ (ddcStep (ddcRun []) CollectEvent.timeoutFire).listenerRef = false
       ∧ (ddcStep (ddcRun []) CollectEvent.timeoutFire).listenerInWindow = false) :=
  ⟨by decide, ddc_cleanup_on_completion [] CollectEvent.timeoutFire (by decide)⟩

/-! ## Claim C1: the challenge modal settles at most once -/

/-- Claim C1: once isResolved is set (the promise was resolved by a
matching completion message or rejected), every later event (any further
message, the timeout firing, a manual close) leaves the promise
settlement unchanged and the modal resolved; in particular a timeout
firing after a completion message leaves the original resolution
standing, as the witness below shows concretely. -/
theorem challenge_settle_once (cfg : ModalConfig) (s : ModalState) (e : ModalEvent)
    (h : s.isResolved = true) :
    (modalStep cfg s e).settled = s.settled
    ∧ (modalStep cfg s e).isResolved = true := by
  cases e with
  | message d => constructor <;> simp [modalStep, h]
  | timeoutFire =>
    by_cases ht : s.timerActive = true
    · constructor <;> simp [modalStep, ht, safeReject, h]
    · constructor <;> simp [modalStep, ht, h]
  | closeCall => constructor <;> simp [modalStep, modalCleanup, h]

/-- Witness for C1: from the freshly shown modal, a matching completion
message resolves the promise with the message data, and a timeout firing
afterwards is a no-op that leaves that resolution standing. -/
theorem challenge_settle_once_witness :
    (modalStep { expectedType := "3DS_COMPLETE", expectedTxn := none } modalShowInit
        (ModalEvent.message (some { type := "3DS_COMPLETE", transactionId := none }))).settled
      = some (ModalOutcome.resolved { type := "3DS_COMPLETE", transactionId := none })
    ∧ (modalStep { expectedType := "3DS_COMPLETE", expectedTxn := none }
        (modalStep { expectedType := "3DS_COMPLETE", expectedTxn := none } modalShowInit
          (ModalEvent.message (some { type := "3DS_COMPLETE", transactionId := none })))
        ModalEvent.timeoutFire).settled
      = some (ModalOutcome.resolved { type := "3DS_COMPLETE", transactionId := none }) := by
  have h := challenge_settle_once { expectedType := "3DS_COMPLETE", expectedTxn := none }
    (modalStep { expectedType := "3DS_COMPLETE", expectedTxn := none } modalShowInit
      (ModalEvent.message (some { type := "3DS_COMPLETE", transactionId := none })))
    ModalEvent.timeoutFire (by decide)
  refine ⟨by decide, ?_⟩
  rw [h.1]
  decide

/-! ## Script loader lemmas -/

theorem removeFlexScript_parts (s : LoaderState) :
    (removeFlexScript s).flexGlobal = false
    ∧ (removeFlexScript s).nextId = s.nextId
    ∧ (removeFlexScript s).attempts = s.attempts
    ∧ (removeFlexScript s).flexLoadPromise = s.flexLoadPromise
    ∧ (removeFlexScript s).loadedFlexScriptUrl = s.loadedFlexScriptUrl := by
  unfold removeFlexScript
  cases h : s.loadedFlexScriptUrl <;> simp [h]

theorem removeFirstBy_mem (p : ScriptTag → Bool) (l : List ScriptTag) (t : ScriptTag)
    (ht : t ∈ removeFirstBy p l) : t ∈ l := by
  induction l with
  | nil => simpa [removeFirstBy] using ht
  | cons x xs ih =>
    simp only [removeFirstBy] at ht
    by_cases hp : p x = true
    · rw [if_pos hp] at ht
      exact List.mem_cons.mpr (Or.inr ht)
    · rw [if_neg hp] at ht
      rcases List.mem_cons.mp ht with h1 | h2
      · exact List.mem_cons.mpr (Or.inl h1)
      · exact List.mem_cons.mpr (Or.inr (ih h2))

theorem removeFirstBy_all_not (p : ScriptTag → Bool) (l : List ScriptTag)
    (h : l.countP p ≤ 1) : ((removeFirstBy p l).all (fun t => !p t)) = true := by
  induction l with
  | nil => rfl
  | cons x xs ih =>
    simp only [removeFirstBy]
    rw [List.countP_cons] at h
    by_cases hp : p x = true
    · rw [if_pos hp]
      have h0 : xs.countP p = 0 := by
        rw [hp] at h
        simp only [if_true] at h
        omega
      rw [List.all_eq_true]
      intro t ht
      have hnp := List.countP_eq_zero.mp h0 t ht
      simp [hnp]
    · rw [if_neg hp]
      rw [List.all_cons]
      have h1 : xs.countP p ≤ 1 := by
        rw [if_neg hp] at h
        omega
      rw [ih h1]
      simp [hp]

theorem removeFlexScript_tags_some (s : LoaderState) (u : String)
    (h : s.loadedFlexScriptUrl = some u) :
    (removeFlexScript s).scriptTags
      = removeFirstBy (fun t => t.src == u) (s.scriptTags.filter (fun t => !t.taggedFlex)) := by
  unfold removeFlexScript
  rw [h]

theorem removeFlexScript_tags_none (s : LoaderState)
    (h : s.loadedFlexScriptUrl = none) :
    (removeFlexScript s).scriptTags = s.scriptTags.filter (fun t => !t.taggedFlex) := by
  unfold removeFlexScript
  rw [h]

theorem removeFlexScript_no_url (s : LoaderState) (uPrev : String)
    (h : s.loadedFlexScriptUrl = some uPrev)
    (hdup : s.scriptTags.countP (fun t => (t.src == uPrev) && !t.taggedFlex) ≤ 1) :
    ((removeFlexScript s).scriptTags.all (fun t => t.src != uPrev)) = true := by
  rw [removeFlexScript_tags_some s uPrev h]
  have hc : (s.scriptTags.filter (fun t => !t.taggedFlex)).countP
      (fun t => t.src == uPrev) ≤ 1 := by
    rw [List.countP_filter]
    exact hdup
  exact removeFirstBy_all_not _ _ hc

theorem removeFlexScript_untagged (s : LoaderState) :
    ((removeFlexScript s).scriptTags.all (fun t => !t.taggedFlex)) = true := by
  cases h : s.loadedFlexScriptUrl with
  | none =>
    rw [removeFlexScript_tags_none s h]
    rw [List.all_eq_true]
    intro t ht
    exact (List.mem_filter.mp ht).2
  | some u =>
    rw [removeFlexScript_tags_some s u h]
    rw [List.all_eq_true]
    intro t ht
    exact (List.mem_filter.mp (removeFirstBy_mem _ _ t ht)).2

theorem loadFlexScriptSync_of_noGlobal (s : LoaderState) (url : String)
    (hfg : s.flexGlobal = false) :
    (loadFlexScriptSync s url).flexGlobal = false
    ∧ (loadFlexScriptSync s url).flexLoadPromise = s.flexLoadPromise
    ∧ (loadFlexScriptSync s url).attempts = s.attempts
    ∧ ((loadFlexScriptSync s url).scriptTags = s.scriptTags
       ∨ (loadFlexScriptSync s url).scriptTags
          = s.scriptTags ++ [{ src := url, taggedFlex := true }]) := by
  unfold loadFlexScriptSync
  by_cases hany : (s.scriptTags.any (fun t => t.src == url)) = true
  · simp [hany, hfg]
  · simp [hany, hfg]

/-! ## Claim C8: script loader deduplication and teardown -/

/-- Claim C8: while a load is in flight (the shared promise exists and no
URL has finished loading yet), any further request leaves the whole
loader state unchanged, starts no new underlying load attempt or poll
loop, and awaits the same shared promise; and when a different URL than
the previously loaded one is requested, the previously loaded script tag
is removed and the window.Flex global deleted before exactly one new
load attempt for the new URL is started under a fresh shared promise.
The second part assumes at most one script tag without the data-flex-sdk
attribute carries the previously loaded URL, matching the singular
previously loaded tag the claim speaks of: the loader itself tags every
tag it creates, and the singular querySelector of the source removes
only the first untagged match. -/
theorem flex_loader_dedup_and_reset :
    (∀ (s : LoaderState) (url : String) (pid : Nat),
        s.flexLoadPromise = some pid → s.loadedFlexScriptUrl = none →
        waitForLibrary s url = (s, some pid))
    ∧ (∀ (s : LoaderState) (u uPrev : String),
        s.loadedFlexScriptUrl = some uPrev → uPrev ≠ "" → uPrev ≠ u →
        s.scriptTags.countP (fun t => (t.src == uPrev) && !t.taggedFlex) ≤ 1 →
        ((waitForLibrary s u).1.scriptTags.all (fun t => t.src != uPrev)) = true
        ∧ (waitForLibrary s u).1.flexGlobal = false
        ∧ (waitForLibrary s u).1.flexLoadPromise = some s.nextId
        ∧ (waitForLibrary s u).1.attempts = s.attempts ++ [(s.nextId, u)]
        ∧ (waitForLibrary s u).2 = some s.nextId) := by
  constructor
  · intro s url pid hp hn
    simp [waitForLibrary, hn, hp, isTruthyStr]
  · intro s u uPrev hload hne hneu hdup
    have hcond1 : (s.flexGlobal && (s.loadedFlexScriptUrl == some u)) = false := by
      rw [hload]
      simp [hneu]
    have htr : (isTruthyStr s.loadedFlexScriptUrl && (s.loadedFlexScriptUrl != some u)) = true := by
      rw [hload]
      simp [isTruthyStr, hne, hneu]
    have heq : waitForLibrary s u
        = (loadFlexScriptSync
            { removeFlexScript s with
              flexLoadPromise := some (removeFlexScript s).nextId
              loadedFlexScriptUrl := none
              nextId := (removeFlexScript s).nextId + 1
              attempts := (removeFlexScript s).attempts ++ [((removeFlexScript s).nextId, u)] } u,
          some (removeFlexScript s).nextId) := by
      simp only [waitForLibrary, hcond1, htr, Bool.false_eq_true, if_false, if_true]
    obtain ⟨r1, r2, r3, r4, r5⟩ := removeFlexScript_parts s
    have hfg2 : ({ removeFlexScript s with
        flexLoadPromise := some (removeFlexScript s).nextId
        loadedFlexScriptUrl := none
        nextId := (removeFlexScript s).nextId + 1
        attempts := (removeFlexScript s).attempts
          ++ [((removeFlexScript s).nextId, u)] } : LoaderState).flexGlobal = false := r1
    obtain ⟨l1, l2, l3, l4⟩ := loadFlexScriptSync_of_noGlobal _ u hfg2
    refine ⟨?_, ?_, ?_, ?_, ?_⟩
    · rw [heq]
      rcases l4 with hsame | happ
      · rw [hsame]
        exact removeFlexScript_no_url s uPrev hload hdup
      · rw [happ]
        rw [List.all_append]
        have hbase := removeFlexScript_no_url s uPrev hload hdup
        have hnew : (List.all [({ src := u, taggedFlex := true } : ScriptTag)]
            (fun t => t.src != uPrev)) = true := by
          simp only [List.all_cons, List.all_nil, Bool.and_true]
          simp [bne_iff_ne]
          exact fun hh => hneu hh.symm
        rw [hbase, hnew]
        rfl
    · rw [heq]
      exact l1
    · rw [heq]
      rw [l2]
      simp [r2]
    · rw [heq]
      rw [l3]
      simp [r2, r3]
    · rw [heq]
      simp [r2]

/-- Witness for C8: a second request for the in-flight URL returns the
same state and promise; a request for a different URL after a completed
load removes the old tag, clears the global and starts one new attempt. -/
theorem flex_loader_dedup_and_reset_witness :
    waitForLibrary
        { flexLoadPromise := some 0, loadedFlexScriptUrl := none, flexGlobal := false,
          scriptTags := [{ src := "u", taggedFlex := true }], nextId := 1,
          attempts := [(0, "u")] } "u"
      = ({ flexLoadPromise := some 0, loadedFlexScriptUrl := none, flexGlobal := false,
           scriptTags := [{ src := "u", taggedFlex := true }], nextId := 1,
           attempts := [(0, "u")] }, some 0)
    ∧ ((waitForLibrary
          { flexLoadPromise := some 0, loadedFlexScriptUrl := some "a", flexGlobal := true,
            scriptTags := [{ src := "a", taggedFlex := true }], nextId := 1,
            attempts := [(0, "a")] } "b").1.scriptTags.all (fun t => t.src != "a")) = true
    ∧ (waitForLibrary
          { flexLoadPromise := some 0, loadedFlexScriptUrl := some "a", flexGlobal := true,
            scriptTags := [{ src := "a", taggedFlex := true }], nextId := 1,
            attempts := [(0, "a")] } "b").1.attempts = [(0, "a"), (1, "b")] := by
  refine ⟨?_, ?_, ?_⟩
  · exact flex_loader_dedup_and_reset.1 _ "u" 0 rfl rfl
  · exact (flex_loader_dedup_and_reset.2 _ "b" "a" rfl (by decide) (by decide) (by decide)).1
  · have h := (flex_loader_dedup_and_reset.2
        { flexLoadPromise := some 0, loadedFlexScriptUrl := some "a", flexGlobal := true,
          scriptTags := [{ src := "a", taggedFlex := true }], nextId := 1,
          attempts := [(0, "a")] } "b" "a" rfl (by decide) (by decide) (by decide)).2.2.2.1
    simpa using h

/-! ## Claim C9: destroy leaves the script cache, resetFlexSDK clears it -/

theorem ddcCleanup_refs_null (s : DDCState) :
    (ddcCleanup s).listenerRef = false
    ∧ (ddcCleanup s).formRef = false
    ∧ (ddcCleanup s).iframeRef = false := by
  unfold ddcCleanup
  cases hl : s.listenerRef <;> cases hf : s.formRef <;> cases hfd : s.formInDom <;>
    cases hi : s.iframeRef <;> cases hid : s.iframeInDom <;> simp [hl, hf, hfd, hi, hid]

/-- Claim C9: destroy tears down the device-data collector (its fields
are nulled), the challenge modal (its DOM, listener and timer are gone)
and any active microform, while leaving the whole loader state, that is
the loaded script tag, the window.Flex global and the module-scope cache
flexLoadPromise and loadedFlexScriptUrl, unchanged; only resetFlexSDK
removes the flex script tags, deletes the global and clears both cache
fields. -/
theorem destroy_preserves_script_cache (w : WebClientState) :
    (webClientDestroy w).loader = w.loader
    ∧ (webClientDestroy w).flexMicroform = false
    ∧ (webClientDestroy w).modal.listenerAttached = false
    ∧ (webClientDestroy w).modal.overlayInDom = false
    ∧ (webClientDestroy w).modal.formInDom = false
    ∧ (webClientDestroy w).modal.timerActive = false
    ∧ (webClientDestroy w).ddc.listenerRef = false
    ∧ (webClientDestroy w).ddc.formRef = false
    ∧ (webClientDestroy w).ddc.iframeRef = false
    ∧ (resetFlexSDK w).loader.flexLoadPromise = none
    ∧ (resetFlexSDK w).loader.loadedFlexScriptUrl = none
    ∧ (resetFlexSDK w).loader.flexGlobal = false
    ∧ ((resetFlexSDK w).loader.scriptTags.all (fun t => !t.taggedFlex)) = true
    ∧ (webClientDestroy w).ddc.settled = w.ddc.settled := by
  obtain ⟨d1, d2, d3⟩ := ddcCleanup_refs_null w.ddc
  refine ⟨rfl, rfl, rfl, rfl, rfl, rfl, d1, d2, d3, rfl, rfl, ?_, ?_, ?_⟩
  · exact (removeFlexScript_parts w.loader).1
  · exact removeFlexScript_untagged w.loader
  · exact ddcCleanup_settled w.ddc
